import Mathlib

/-!
# Verification of the `send-invites` e-invite web application

Shallow embedding of `invite_app.py`: the SQLite-backed data model, the
startup schema migration (`init_db`), the in-memory session store, and the
WSGI request dispatcher (`application`), together with proofs settling the
frozen claims about the program.

Modelling conventions:
* SQLite rows become Lean structures; `NULL`-able columns become `Option`.
  `TEXT` columns of the `events` table whose NULL/non-NULL distinction no
  claim depends on are modelled as plain `String`.
* `AUTOINCREMENT` ids: the next id is one more than the maximum id present
  (no request ever deletes a row, so the sqlite sequence agrees with the
  maximum).
* Nondeterministic externals are request inputs: `secrets.token_hex(16)`
  becomes the `freshSid` field, `time.time()` the `now` field (its `REAL`
  value is modelled as an abstract integer tick; no claim computes with it).
* `hashlib.sha256(...).hexdigest()` is an external primitive; it is modelled
  as an injective tagging of the input, and no claim depends on its output.
* Template rendering, static files, calendar-link strings and outbound
  email are excluded by the spec as thin I/O wrappers; responses record the
  template name and the inline error message, which is all the claims need.
* Python exceptions (`ValueError` from `int`, `UnboundLocalError` from the
  unassigned `calendar_links` local on the anonymous POST error path) are
  modelled with `Except`; the handler also returns the server state as of
  the raise point, i.e. the effects committed before the exception.
-/

/-- ASCII whitespace stripped by Python's `str.strip()` (the characters that
occur in this application's inputs). -/
def isPySpace (c : Char) : Bool :=
  c = ' ' || c = '\t' || c = '\n' || c = '\r' || c = '\x0b' || c = '\x0c'

/-- Python `str.strip()`: remove leading and trailing whitespace. -/
def pyStrip (s : String) : String :=
  String.mk (((s.toList.dropWhile isPySpace).reverse.dropWhile isPySpace).reverse)

/-- Tail of a Python integer literal after its first digit: digits with
single underscores allowed between digits. -/
def pyDigitsTail : List Char → Bool
  | [] => true
  | '_' :: c :: rest => c.isDigit && pyDigitsTail rest
  | c :: rest => c.isDigit && pyDigitsTail rest

/-- A nonempty Python digit run: a digit followed by `pyDigitsTail`. -/
def pyDigits : List Char → Bool
  | [] => false
  | c :: rest => c.isDigit && pyDigitsTail rest

/-- Numeric value of a digit run, skipping underscore separators. -/
def pyDigitsVal (acc : Nat) : List Char → Nat
  | [] => acc
  | c :: rest =>
    if c = '_' then pyDigitsVal acc rest
    else pyDigitsVal (acc * 10 + (c.toNat - 48)) rest

/-- Python's `int(s)` on a string: strip whitespace, optional sign, decimal
digits with underscore separators; `none` models the `ValueError` raise. -/
def pyInt (s : String) : Option Int :=
  match (pyStrip s).toList with
  | '+' :: rest => if pyDigits rest then some (pyDigitsVal 0 rest) else none
  | '-' :: rest => if pyDigits rest then some (-(pyDigitsVal 0 rest : Int)) else none
  | cs => if pyDigits cs then some (pyDigitsVal 0 cs) else none

/-- SQLite `AUTOINCREMENT`: the id assigned to a newly inserted row, one more
than the largest id present. -/
def freshId (ids : List Int) : Int :=
  ids.foldr max 0 + 1

/-- A row of the `users` table (`id`, `name`, `email UNIQUE`,
`password_hash`, `is_admin`). -/
structure UserRow where
  id : Int
  name : String
  email : String
  password_hash : String
  is_admin : Bool
deriving Repr, DecidableEq

/-- A row of the `events` table. -/
structure EventRow where
  id : Int
  title : String
  description : String
  host : String
  datetime : String
  location : String
  registry1 : String
  registry2 : String
  header_image : String
  card_theme : String
deriving Repr, DecidableEq

/-- A row of the `invites` table (post-migration schema `invites_new`). -/
structure InviteRow where
  id : Int
  event_id : Int
  user_id : Option Int
  rsvp : Option String
  adults_qty : Option Int
  kids_qty : Option Int
  guest_name : Option String
  guest_email : Option String
  guest_phone : Option String
  is_anonymous : Option Bool
deriving Repr, DecidableEq

/-- A row of the `comments` table (post-migration schema with
`comment_name`); `timestamp REAL` is modelled as an abstract integer tick. -/
structure CommentRow where
  id : Int
  event_id : Int
  user_id : Option Int
  comment : String
  comment_name : Option String
  timestamp : Int
deriving Repr, DecidableEq

/-- The SQLite database: the four tables. -/
structure DB where
  users : List UserRow
  events : List EventRow
  invites : List InviteRow
  comments : List CommentRow
deriving Repr, DecidableEq

/-- Full server state: the database plus the in-memory `sessions` dict
(`session_id → user id`), modelled as an association list with dict
semantics (lookup finds the entry, assignment replaces or appends, pop
removes the key). -/
structure ServerState where
  db : DB
  sessions : List (String × Int)
deriving Repr, DecidableEq

/-- Dict lookup `sessions.get(sid)`. -/
def sessionsGet (sessions : List (String × Int)) (sid : String) : Option Int :=
  (sessions.find? (fun p => decide (p.1 = sid))).map (·.2)

/-- Dict assignment `sessions[sid] = uid`. -/
def sessionsSet (sessions : List (String × Int)) (sid : String) (uid : Int) :
    List (String × Int) :=
  if sessions.any (fun p => decide (p.1 = sid)) then
    sessions.map (fun p => if p.1 = sid then (sid, uid) else p)
  else sessions ++ [(sid, uid)]

/-- Dict removal `sessions.pop(sid, None)`. -/
def sessionsPop (sessions : List (String × Int)) (sid : String) :
    List (String × Int) :=
  sessions.filter (fun p => decide (p.1 ≠ sid))

/-- `get_user_from_session`: the user id stored under the `session_id`
cookie, if the request carries one. -/
def get_user_from_session (sessions : List (String × Int))
    (cookieSid : Option String) : Option Int :=
  match cookieSid with
  | some sid => sessionsGet sessions sid
  | none => none

/-- Python truthiness of an `Optional[int]` (`if not user_id`): `None` and
`0` are falsy. -/
def truthyOptInt : Option Int → Bool
  | none => false
  | some n => decide (n ≠ 0)

/-- `hash_password`: SHA-256 hex digest of the password. The digest is an
external primitive (hashlib); it is modelled as an injective tagging of the
input, and no claim depends on its output value. -/
def hash_password (password : String) : String :=
  String.append "sha256-hexdigest:" password

/-- Lookup of a form field from the flattened `parse_post` dict
(`params.get(k)`); `parse_post` keeps the first value for each key. -/
def getP (params : List (String × String)) (k : String) : Option String :=
  (params.find? (fun p => decide (p.1 = k))).map (·.2)

/-- `params.get(k, d)` with a string default. -/
def getPD (params : List (String × String)) (k d : String) : String :=
  (getP params k).getD d

/-!
## `init_db`: the startup schema migration

After the `CREATE TABLE IF NOT EXISTS` and `ALTER TABLE ... ADD COLUMN`
steps, `init_db` recreates the invites table: it creates `invites_new`,
copies every row with

    SELECT id, event_id, user_id, rsvp,
           COALESCE(adults_qty, 1), COALESCE(kids_qty, 0),
           guest_name, guest_email, NULL, COALESCE(is_anonymous, 0)

(the ninth selected column, bound to `guest_phone`, is the literal `NULL`),
drops `invites` and renames `invites_new` to `invites`. The surrounding
`try` only catches `sqlite3.OperationalError`, and `CREATE TABLE
invites_new` succeeds on every startup (the table never exists, having been
renamed away), so this copy runs on every startup, not only on the first
migration.
-/

/-- The per-row transformation applied by the `INSERT INTO invites_new ...
SELECT` copy in `init_db`. -/
def migrateInviteRow (r : InviteRow) : InviteRow :=
  { r with
    adults_qty := some (r.adults_qty.getD 1),
    kids_qty := some (r.kids_qty.getD 0),
    guest_phone := none,
    is_anonymous := some (r.is_anonymous.getD false) }

/-- The invites-table migration of `init_db`: every existing row is copied
through `migrateInviteRow` into the recreated table. -/
def migrateInvites (invites : List InviteRow) : List InviteRow :=
  invites.map migrateInviteRow

/-- The comments-table migration of `init_db`: it runs only when the
`comment_name` column is absent (checked via `PRAGMA table_info`), and then
copies `id, event_id, user_id, comment, timestamp`, leaving `comment_name`
NULL. -/
def migrateComments (hasCommentNameColumn : Bool)
    (comments : List CommentRow) : List CommentRow :=
  if hasCommentNameColumn then comments
  else comments.map (fun r => { r with comment_name := none })

/-!
## The WSGI dispatcher `application`

Requests are modelled after routing: `application` matches the path by
exact comparison or `startswith` plus `path.strip("/").split("/")`, and
every path shape it recognises is a `ReqPath` constructor carrying the raw
id segment (still a string, parsed by `int(...)` inside the branch).  All
remaining paths — unknown paths as well as recognised prefixes with the
wrong number of segments — produce a 404 (or a static-file response) and
leave the state untouched; they are folded into `other` / `staticFile`.
-/

/-- Python exceptions that escape the handler: `ValueError` from `int()`,
and `UnboundLocalError` from reading a local before assignment. -/
inductive PyError
  | valueError
  | unboundLocal (var : String)
deriving Repr, DecidableEq

/-- HTTP method of a request (the dispatcher only distinguishes GET and
POST). -/
inductive Method
  | get
  | post
deriving Repr, DecidableEq

/-- The routed path of a request; id segments are kept as raw strings. -/
inductive ReqPath
  | root
  | register
  | login
  | logout
  | staticFile (rest : String)
  | calendar (seg : String)
  | event (seg : String)
  | adminEvent (seg : String)
  | anonymousRsvp (seg : String)
  | rsvpThanks (seg : String)
  | other
deriving Repr, DecidableEq

/-- An incoming HTTP request. `cookieSid` is the `session_id` cookie value;
`params` the flattened `parse_post` form dict; `freshSid` the value
`secrets.token_hex(16)` would produce on this request; `now` the
`time.time()` tick. -/
structure Request where
  path : ReqPath
  method : Method
  cookieSid : Option String
  params : List (String × String)
  freshSid : String
  now : Int
deriving Repr, DecidableEq

/-- The response, reduced to what the claims observe: the status class, the
redirect target, the rendered template and its inline error message. -/
inductive Response
  | redirect (location : String)
  | page (template : String) (error : Option String)
  | notFound (msg : String)
  | forbidden (msg : String)
  | fileData
  | calendarFile
deriving Repr, DecidableEq

/-- `/register` POST: validate the three fields, insert the user (admin iff
first user) and an automatic invite to event 1, or redisplay the form; a
duplicate email violates the `UNIQUE` constraint, the `IntegrityError`
branch closes the connection without committing, so nothing is inserted. -/
def handleRegisterPost (req : Request) (s : ServerState) :
    Except PyError Response × ServerState :=
  let name := pyStrip (getPD req.params "name" "")
  let email := pyStrip (getPD req.params "email" "")
  let password := getPD req.params "password" ""
  if name = "" ∨ email = "" ∨ password = "" then
    (.ok (.page "register.html" (some "Please fill all fields.")), s)
  else
    let isFirst := s.db.users.length = 0
    if s.db.users.any (fun u => decide (u.email = email)) then
      (.ok (.page "register.html" (some "Email already registered.")), s)
    else
      let uid := freshId (s.db.users.map (·.id))
      let newUser : UserRow :=
        { id := uid, name := name, email := email,
          password_hash := hash_password password, is_admin := isFirst }
      let iid := freshId (s.db.invites.map (·.id))
      let newInvite : InviteRow :=
        { id := iid, event_id := 1, user_id := some uid, rsvp := none,
          adults_qty := some 1, kids_qty := some 0, guest_name := none,
          guest_email := none, guest_phone := none,
          is_anonymous := some false }
      (.ok (.redirect "/"),
        { db := { s.db with
                  users := s.db.users ++ [newUser],
                  invites := s.db.invites ++ [newInvite] },
          sessions := sessionsSet s.sessions req.freshSid uid })

/-- `/login` POST: look the user up by email, compare password hashes, set a
session on success, redisplay the form on failure. -/
def handleLoginPost (req : Request) (s : ServerState) :
    Except PyError Response × ServerState :=
  let email := pyStrip (getPD req.params "email" "")
  let password := getPD req.params "password" ""
  match s.db.users.find? (fun u => decide (u.email = email)) with
  | some u =>
    if hash_password password = u.password_hash then
      (.ok (.redirect "/"),
        { s with sessions := sessionsSet s.sessions req.freshSid u.id })
    else
      (.ok (.page "login.html" (some "Invalid email or password.")), s)
  | none =>
    (.ok (.page "login.html" (some "Invalid email or password.")), s)

/-- `/logout`: pop the session id named by the cookie from the in-memory
store and redirect to the event page. -/
def handleLogout (req : Request) (s : ServerState) :
    Except PyError Response × ServerState :=
  match req.cookieSid with
  | some sid =>
    (.ok (.redirect "/event/1"), { s with sessions := sessionsPop s.sessions sid })
  | none => (.ok (.redirect "/event/1"), s)

/-- `/calendar/<id>`: 404 on a malformed id or missing event, otherwise the
ICS file (content generation is an excluded external). -/
def handleCalendar (seg : String) (s : ServerState) :
    Except PyError Response × ServerState :=
  match pyInt seg with
  | none => (.ok (.notFound "Event not found"), s)
  | some eid =>
    match s.db.events.find? (fun e => decide (e.id = eid)) with
    | none => (.ok (.notFound "Event not found"), s)
    | some _ => (.ok .calendarFile, s)

/-- Quantity field in the `/event/<id>` RSVP branch:
`int(params.get("adults_qty", 1))` — the default is the integer literal, so
an absent field yields the default, while a present field (even the empty
string) goes through `int()` and may raise `ValueError`. -/
def eventQty (v : Option String) (d : Int) : Except PyError Int :=
  match v with
  | none => .ok d
  | some str =>
    match pyInt str with
    | some n => .ok n
    | none => .error .valueError

/-- The `INSERT OR REPLACE INTO invites ...` of the RSVP branch.  The only
uniqueness constraint on `invites` is the `INTEGER PRIMARY KEY` `id`, and
the statement does not supply an id, so the fresh autoincrement id is used:
rows conflicting on that id are replaced (there are none) and the new row
is appended. -/
def insertOrReplaceInvite (invites : List InviteRow) (row : Int → InviteRow) :
    List InviteRow :=
  let nid := freshId (invites.map (·.id))
  invites.filter (fun r => decide (r.id ≠ nid)) ++ [row nid]

/-- `/event/<id>`: GET renders the invitation (or 404); POST handles the
`rsvp` action (validated response, quantities through `int()`, then
`INSERT OR REPLACE`) and the `comment` action (insert when both text and
name are nonempty), always redirecting back to the event page. -/
def handleEvent (req : Request) (seg : String) (s : ServerState) :
    Except PyError Response × ServerState :=
  match pyInt seg with
  | none => (.ok (.notFound "Event not found"), s)
  | some eid =>
    let user_id := get_user_from_session s.sessions req.cookieSid
    match req.method with
    | .get =>
      match s.db.events.find? (fun e => decide (e.id = eid)) with
      | none => (.ok (.notFound "Event not found"), s)
      | some _ => (.ok (.page "event.html" none), s)
    | .post =>
      let action := getPD req.params "action" ""
      if action = "rsvp" then
        let response := getPD req.params "response" ""
        if response = "yes" ∨ response = "no" then
          let qtys : Except PyError (Int × Int) :=
            if response = "yes" then
              match eventQty (getP req.params "adults_qty") 1 with
              | .error e => .error e
              | .ok a =>
                match eventQty (getP req.params "kids_qty") 0 with
                | .error e => .error e
                | .ok k => .ok (a, k)
            else .ok (1, 0)
          match qtys with
          | .error e => (.error e, s)
          | .ok (a, k) =>
            let invites' := insertOrReplaceInvite s.db.invites (fun nid =>
              { id := nid, event_id := eid, user_id := user_id,
                rsvp := some response, adults_qty := some a,
                kids_qty := some k, guest_name := none, guest_email := none,
                guest_phone := none, is_anonymous := some false })
            (.ok (.redirect ("/event/" ++ toString eid)),
              { s with db := { s.db with invites := invites' } })
        else
          (.ok (.redirect ("/event/" ++ toString eid)), s)
      else if action = "comment" then
        let comment_text := pyStrip (getPD req.params "comment" "")
        let comment_name := pyStrip (getPD req.params "comment_name" "")
        if comment_text ≠ "" ∧ comment_name ≠ "" then
          let cid := freshId (s.db.comments.map (·.id))
          let newComment : CommentRow :=
            { id := cid, event_id := eid, user_id := user_id,
              comment := comment_text, comment_name := some comment_name,
              timestamp := req.now }
          (.ok (.redirect ("/event/" ++ toString eid)),
            { s with db := { s.db with comments := s.db.comments ++ [newComment] } })
        else
          (.ok (.redirect ("/event/" ++ toString eid)), s)
      else
        (.ok (.redirect ("/event/" ++ toString eid)), s)

/-- One step of the admin statistics loop over the guest rows: `rsvp ==
"yes"` counts as attending and adds `adults_qty or 1` and `kids_qty or 0`
(Python `or`: `None` and `0` are falsy); `rsvp == "no"` counts as not
attending; anything else as no response. -/
def pyOrInt (v : Option Int) (d : Int) : Int :=
  match v with
  | none => d
  | some n => if n = 0 then d else n

/-- The `rsvp_stats` dict assembled by the admin GET branch. -/
structure RsvpStats where
  attending : Nat
  not_attending : Nat
  no_response : Nat
  total_adults : Int
  total_kids : Int
deriving Repr, DecidableEq

/-- The body of the admin statistics loop, one invite row at a time. -/
def statsStep (st : RsvpStats) (i : InviteRow) : RsvpStats :=
  if i.rsvp = some "yes" then
    { st with
      attending := st.attending + 1,
      total_adults := st.total_adults + pyOrInt i.adults_qty 1,
      total_kids := st.total_kids + pyOrInt i.kids_qty 0 }
  else if i.rsvp = some "no" then
    { st with not_attending := st.not_attending + 1 }
  else
    { st with no_response := st.no_response + 1 }

/-- The invite rows the admin page fetches for an event
(`WHERE i.event_id = ?`; the `ORDER BY name` does not affect counts or
sums). -/
def eventInvites (db : DB) (eid : Int) : List InviteRow :=
  db.invites.filter (fun i => decide (i.event_id = eid))

/-- The RSVP statistics the admin GET branch computes for an event. -/
def adminRsvpStats (db : DB) (eid : Int) : RsvpStats :=
  (eventInvites db eid).foldl statsStep ⟨0, 0, 0, 0, 0⟩

/-- `/admin/event/<id>`: 404 on a malformed id; redirect to `/login` when no
session maps to a (truthy) user id; 403 unless the user row exists and is
an admin; then GET renders the edit form and statistics, POST updates the
event row in place. -/
def handleAdminEvent (req : Request) (seg : String) (s : ServerState) :
    Except PyError Response × ServerState :=
  match pyInt seg with
  | none => (.ok (.notFound "Event not found"), s)
  | some eid =>
    match get_user_from_session s.sessions req.cookieSid with
    | none => (.ok (.redirect "/login"), s)
    | some uid =>
      if uid = 0 then
        -- `if not user_id`: the integer 0 is falsy in Python
        (.ok (.redirect "/login"), s)
      else
      match s.db.users.find? (fun u => decide (u.id = uid)) with
      | none => (.ok (.forbidden "Admin access required"), s)
      | some u =>
        if u.is_admin = false then
          (.ok (.forbidden "Admin access required"), s)
        else
          match req.method with
          | .get =>
            match s.db.events.find? (fun e => decide (e.id = eid)) with
            | none => (.ok (.notFound "Event not found"), s)
            | some _ => (.ok (.page "admin.html" none), s)
          | .post =>
            let events' := s.db.events.map (fun e =>
              if e.id = eid then
                { e with
                  title := getPD req.params "title" "",
                  description := getPD req.params "description" "",
                  host := getPD req.params "host" "",
                  datetime := getPD req.params "datetime" "",
                  location := getPD req.params "location" "",
                  registry1 := getPD req.params "registry1" "",
                  registry2 := getPD req.params "registry2" "",
                  card_theme := getPD req.params "card_theme" "ocean" }
              else e)
            (.ok (.redirect ("/event/" ++ toString eid)),
              { s with db := { s.db with events := events' } })

/-- Quantity field in the anonymous RSVP branch:
`int(params.get("adults_qty", 1)) if params.get("adults_qty") else 1` — an
absent or empty field is falsy and yields the literal default; otherwise
the value goes through `int()` and may raise `ValueError`. -/
def anonQty (v : Option String) (d : Int) : Except PyError Int :=
  match v with
  | none => .ok d
  | some str =>
    if str = "" then .ok d
    else
      match pyInt str with
      | some n => .ok n
      | none => .error .valueError

/-- The `WHERE event_id=? AND guest_phone=? AND is_anonymous=1` predicate of
the anonymous-RSVP duplicate lookup (SQL equality never matches NULL). -/
def anonMatch (eid : Int) (ph : String) (i : InviteRow) : Bool :=
  decide (i.event_id = eid) && decide (i.guest_phone = some ph) &&
    decide (i.is_anonymous = some true)

/-- The plain `INSERT INTO invites ...` of the anonymous RSVP branch. -/
def insertAnonInvite (s : ServerState) (eid : Int)
    (gname gemail gphone rsvp : String) (a k : Int) : ServerState :=
  let nid := freshId (s.db.invites.map (·.id))
  { s with db := { s.db with invites := s.db.invites ++
      [{ id := nid, event_id := eid, user_id := none, rsvp := some rsvp,
         adults_qty := some a, kids_qty := some k,
         guest_name := some gname, guest_email := some gemail,
         guest_phone := some gphone, is_anonymous := some true }] } }

/-- `/anonymous-rsvp/<id>` POST, after the quantities parsed: the duplicate
check by phone number runs first and, on a match, updates the row in place
(before any validation); otherwise an invalid submission reaches the
error-redisplay branch, whose `template.render(..., calendar_links=
calendar_links, ...)` reads a local assigned only on GET paths and raises
`UnboundLocalError` — and when the event row is missing, that branch falls
through to the insert; a valid submission inserts a new anonymous row. -/
def anonPostCore (s : ServerState) (eid : Int)
    (gname gemail gphone rsvp : String) (a k : Int) :
    Except PyError Response × ServerState :=
  match s.db.invites.find? (anonMatch eid gphone) with
  | some _ =>
    let invites' := s.db.invites.map (fun i =>
      if anonMatch eid gphone i then
        { i with guest_name := some gname, guest_email := some gemail,
                 rsvp := some rsvp, adults_qty := some a, kids_qty := some k }
      else i)
    (.ok (.redirect ("/event/" ++ toString eid ++ "?rsvp_success=" ++ rsvp)),
      { s with db := { s.db with invites := invites' } })
  | none =>
    if gname = "" ∨ gphone = "" ∨ (rsvp ≠ "yes" ∧ rsvp ≠ "no") then
      match s.db.events.find? (fun e => decide (e.id = eid)) with
      | some _ => (.error (.unboundLocal "calendar_links"), s)
      | none =>
        -- `if event:` guards the redisplay; with no event row the branch
        -- falls through to the insert below
        (.ok (.redirect ("/event/" ++ toString eid ++ "?rsvp_success=" ++ rsvp)),
          insertAnonInvite s eid gname gemail gphone rsvp a k)
    else
      (.ok (.redirect ("/event/" ++ toString eid ++ "?rsvp_success=" ++ rsvp)),
        insertAnonInvite s eid gname gemail gphone rsvp a k)

/-- `/anonymous-rsvp/<id>`: GET renders the form (or 404); POST parses the
fields and quantities and runs `anonPostCore`. -/
def handleAnonymousRsvp (req : Request) (seg : String) (s : ServerState) :
    Except PyError Response × ServerState :=
  match pyInt seg with
  | none => (.ok (.notFound "Event not found"), s)
  | some eid =>
    match req.method with
    | .get =>
      match s.db.events.find? (fun e => decide (e.id = eid)) with
      | none => (.ok (.notFound "Event not found"), s)
      | some _ => (.ok (.page "anonymous_rsvp.html" none), s)
    | .post =>
      let gname := pyStrip (getPD req.params "guest_name" "")
      let gemail := pyStrip (getPD req.params "guest_email" "")
      let gphone := pyStrip (getPD req.params "guest_phone" "")
      let rsvp := getPD req.params "rsvp" ""
      match anonQty (getP req.params "adults_qty") 1 with
      | .error e => (.error e, s)
      | .ok a =>
        match anonQty (getP req.params "kids_qty") 0 with
        | .error e => (.error e, s)
        | .ok k => anonPostCore s eid gname gemail gphone rsvp a k

/-- `/rsvp-thanks/<id>`: a static thank-you page (404 on a malformed id). -/
def handleRsvpThanks (seg : String) (s : ServerState) :
    Except PyError Response × ServerState :=
  match pyInt seg with
  | none => (.ok (.notFound "Event not found"), s)
  | some _ => (.ok (.page "thanks" none), s)

/-- The WSGI `application` dispatcher over the routed path. -/
def handle (req : Request) (s : ServerState) :
    Except PyError Response × ServerState :=
  match req.path with
  | .root => (.ok (.redirect "/event/1"), s)
  | .staticFile _ => (.ok .fileData, s)
  | .register =>
    match req.method with
    | .get => (.ok (.page "register.html" none), s)
    | .post => handleRegisterPost req s
  | .login =>
    match req.method with
    | .get => (.ok (.page "login.html" none), s)
    | .post => handleLoginPost req s
  | .logout => handleLogout req s
  | .calendar seg => handleCalendar seg s
  | .event seg => handleEvent req seg s
  | .adminEvent seg => handleAdminEvent req seg s
  | .anonymousRsvp seg => handleAnonymousRsvp req seg s
  | .rsvpThanks seg => handleRsvpThanks seg s
  | .other => (.ok (.notFound "Not Found"), s)

/-!
## Stated properties and concrete instances
-/

/-- No request removes a row: the ids present in each table before the
request are still present afterwards. -/
def RowsPreserved (d d' : DB) : Prop :=
  d.users.map (·.id) ⊆ d'.users.map (·.id) ∧
  d.events.map (·.id) ⊆ d'.events.map (·.id) ∧
  d.invites.map (·.id) ⊆ d'.invites.map (·.id) ∧
  d.comments.map (·.id) ⊆ d'.comments.map (·.id)

/-- At most one invite row matches the anonymous-duplicate lookup predicate
for any (event id, phone) pair. -/
def AnonInvariant (invites : List InviteRow) : Prop :=
  ∀ eid ph, (invites.filter (anonMatch eid ph)).length ≤ 1

/-- C9's claimed contribution of a yes-invite to `total_adults` as amended:
a NULL or zero `adults_qty` counts as 1 (Python `adults_qty or 1`). -/
def specAdultContribution (q : Option Int) : Int :=
  match q with
  | none => 1
  | some n => if n = 0 then 1 else n

/-- C9's claimed `total_adults`, written from the claim's own words: the sum
of `adults_qty` over the yes-invites with NULL counted as 1 (and nothing
special said about 0). -/
def specTotalAdultsClaim (db : DB) (eid : Int) : Int :=
  (((eventInvites db eid).filter (fun i => decide (i.rsvp = some "yes"))).map
    (fun i => i.adults_qty.getD 1)).sum

/-- C9's claimed `total_kids`: the sum of `kids_qty` over the yes-invites
with NULL counted as 0. -/
def specTotalKidsClaim (db : DB) (eid : Int) : Int :=
  (((eventInvites db eid).filter (fun i => decide (i.rsvp = some "yes"))).map
    (fun i => i.kids_qty.getD 0)).sum

/-- The amended C10 side condition on a quantity form field: absent, or a
valid Python integer literal. -/
def qtyOk : Option String → Prop
  | none => True
  | some str => (pyInt str).isSome = true

/-- The default event row `init_db` seeds (fields abridged to the ones the
claims observe). -/
def sampleEvent : EventRow :=
  { id := 1, title := "A little pearl is on the way", description := "",
    host := "Rohan", datetime := "2025-10-04T11:00:00", location := "",
    registry1 := "", registry2 := "", header_image := "header.png",
    card_theme := "ocean" }

/-- C1's failing input: an invites row, written by an anonymous RSVP in a
previous run, whose `guest_phone` is populated. -/
def c1Row : InviteRow :=
  { id := 1, event_id := 1, user_id := none, rsvp := some "yes",
    adults_qty := some 2, kids_qty := some 1, guest_name := some "Dana",
    guest_email := some "dana@example.com", guest_phone := some "5551234567",
    is_anonymous := some true }

/-- C2: a registered user who already submitted an RSVP for event 1. -/
def c2State : ServerState :=
  { db := { users := [{ id := 1, name := "Ann", email := "ann@example.com",
                        password_hash := hash_password "pw", is_admin := true }],
            events := [sampleEvent],
            invites := [{ id := 1, event_id := 1, user_id := some 1,
                          rsvp := some "yes", adults_qty := some 2,
                          kids_qty := some 0, guest_name := none,
                          guest_email := none, guest_phone := none,
                          is_anonymous := some false }],
            comments := [] },
    sessions := [("c2sid", 1)] }

/-- C2: the same user submits a second RSVP ("no") for event 1. -/
def c2Req : Request :=
  { path := .event "1", method := .post, cookieSid := some "c2sid",
    params := [("action", "rsvp"), ("response", "no")],
    freshSid := "f", now := 0 }

/-- C3 witness state: one anonymous invite for event 1 with phone 5550001. -/
def c3wState : ServerState :=
  { db := { users := [], events := [sampleEvent],
            invites := [{ id := 1, event_id := 1, user_id := none,
                          rsvp := some "yes", adults_qty := some 1,
                          kids_qty := some 0, guest_name := some "Bob",
                          guest_email := some "", guest_phone := some "5550001",
                          is_anonymous := some true }],
            comments := [] },
    sessions := [] }

/-- C3 witness request: an anonymous RSVP with the same phone number. -/
def c3wReq : Request :=
  { path := .anonymousRsvp "1", method := .post, cookieSid := none,
    params := [("guest_name", "Bob"), ("guest_phone", "5550001"),
               ("rsvp", "no")],
    freshSid := "f", now := 0 }

/-- C4 witness state: a user with the email about to be re-registered. -/
def c4wState : ServerState :=
  { db := { users := [{ id := 1, name := "Ann", email := "ann@example.com",
                        password_hash := hash_password "pw", is_admin := true }],
            events := [sampleEvent], invites := [], comments := [] },
    sessions := [] }

/-- C4 witness request: a registration POST reusing an existing email. -/
def c4wReq : Request :=
  { path := .register, method := .post, cookieSid := none,
    params := [("name", "Bob"), ("email", "ann@example.com"),
               ("password", "secret")],
    freshSid := "f", now := 0 }

/-- C5's failing input: event 1 exists and no anonymous invite matches the
submitted phone number. -/
def c5State : ServerState :=
  { db := { users := [], events := [sampleEvent], invites := [],
            comments := [] },
    sessions := [] }

/-- C5's failing request: an anonymous RSVP POST with an empty guest name
and an invalid rsvp value. -/
def c5Req : Request :=
  { path := .anonymousRsvp "1", method := .post, cookieSid := none,
    params := [("guest_name", ""), ("guest_phone", "5550002"),
               ("rsvp", "maybe")],
    freshSid := "f", now := 0 }

/-- C6 witness state: a logged-in non-admin user. -/
def c6wState : ServerState :=
  { db := { users := [{ id := 1, name := "Bob", email := "bob@example.com",
                        password_hash := hash_password "pw", is_admin := false }],
            events := [sampleEvent], invites := [], comments := [] },
    sessions := [("c6sid", 1)] }

/-- C6 witness request without a session cookie. -/
def c6wReqAnon : Request :=
  { path := .adminEvent "1", method := .get, cookieSid := none,
    params := [], freshSid := "f", now := 0 }

/-- C6 witness request carrying the non-admin user's session cookie. -/
def c6wReqUser : Request :=
  { path := .adminEvent "1", method := .get, cookieSid := some "c6sid",
    params := [], freshSid := "f", now := 0 }

/-- C8 witness state: one live session. -/
def c8wState : ServerState :=
  { db := { users := [], events := [], invites := [], comments := [] },
    sessions := [("c8sid", 7)] }

/-- C8 witness request: logout carrying that session's cookie. -/
def c8wReq : Request :=
  { path := .logout, method := .get, cookieSid := some "c8sid",
    params := [], freshSid := "f", now := 0 }

/-- C9's failing input: a single yes-invite whose `adults_qty` is 0. -/
def c9db : DB :=
  { users := [], events := [sampleEvent],
    invites := [{ id := 1, event_id := 1, user_id := none, rsvp := some "yes",
                  adults_qty := some 0, kids_qty := some 0,
                  guest_name := some "Gia", guest_email := none,
                  guest_phone := some "5550003", is_anonymous := some true }],
    comments := [] }

/-- C10's failing input: a logged-out visitor state with event 1. -/
def c10State : ServerState :=
  { db := { users := [], events := [sampleEvent], invites := [],
            comments := [] },
    sessions := [] }

/-- C10's failing request: an RSVP "yes" whose `adults_qty` field is not
numeric. -/
def c10Req : Request :=
  { path := .event "1", method := .post, cookieSid := none,
    params := [("action", "rsvp"), ("response", "yes"),
               ("adults_qty", "abc"), ("kids_qty", "0")],
    freshSid := "f", now := 0 }

/-- C10 witness request: the same RSVP with numeric quantities. -/
def c10wReq : Request :=
  { path := .event "1", method := .post, cookieSid := none,
    params := [("action", "rsvp"), ("response", "yes"),
               ("adults_qty", "2"), ("kids_qty", "3")],
    freshSid := "f", now := 0 }

/-!
## Helper lemmas
-/

theorem le_foldr_max (ids : List Int) : ∀ x ∈ ids, x ≤ ids.foldr max 0 := by
  induction ids with
  | nil => simp
  | cons a t ih =>
    intro x hx
    rcases List.mem_cons.mp hx with h | h
    · subst h; exact le_max_left _ _
    · exact le_trans (ih x h) (le_max_right _ _)

theorem freshId_not_mem (ids : List Int) : freshId ids ∉ ids := by
  intro hmem
  have h := le_foldr_max ids _ hmem
  simp only [freshId] at h
  omega

/-- `INSERT OR REPLACE` into `invites` never replaces: the fresh
autoincrement id conflicts with no existing row, so the statement is a plain
append. -/
theorem insertOrReplaceInvite_eq_append (l : List InviteRow)
    (row : Int → InviteRow) :
    insertOrReplaceInvite l row = l ++ [row (freshId (l.map (·.id)))] := by
  simp only [insertOrReplaceInvite]
  congr 1
  rw [List.filter_eq_self]
  intro a ha
  simp only [decide_eq_true_eq]
  intro heq
  exact freshId_not_mem (l.map (·.id)) (heq ▸ List.mem_map_of_mem (·.id) ha)

theorem map_subset_append {α β : Type} (l t : List α) (f : α → β) :
    l.map f ⊆ (l ++ t).map f := by
  rw [List.map_append]
  exact List.subset_append_left _ _

theorem map_map_eq_of_comp {α β : Type} (l : List α) (g : α → α) (f : α → β)
    (hg : ∀ x, f (g x) = f x) : (l.map g).map f = l.map f := by
  induction l with
  | nil => rfl
  | cons a t ih => simp [ih, hg]

theorem rowsPreserved_refl (d : DB) : RowsPreserved d d :=
  ⟨List.Subset.refl _, List.Subset.refl _, List.Subset.refl _, List.Subset.refl _⟩

theorem preserved_registerPost (req : Request) (s : ServerState) :
    RowsPreserved s.db (handleRegisterPost req s).2.db := by
  simp only [handleRegisterPost]
  split
  · exact rowsPreserved_refl _
  · split
    · exact rowsPreserved_refl _
    · exact ⟨map_subset_append _ _ _, List.Subset.refl _,
             map_subset_append _ _ _, List.Subset.refl _⟩

theorem preserved_loginPost (req : Request) (s : ServerState) :
    RowsPreserved s.db (handleLoginPost req s).2.db := by
  simp only [handleLoginPost]
  split
  · split
    · exact rowsPreserved_refl _
    · exact rowsPreserved_refl _
  · exact rowsPreserved_refl _

theorem preserved_logout (req : Request) (s : ServerState) :
    RowsPreserved s.db (handleLogout req s).2.db := by
  simp only [handleLogout]
  split
  · exact rowsPreserved_refl _
  · exact rowsPreserved_refl _

theorem preserved_calendar (seg : String) (s : ServerState) :
    RowsPreserved s.db (handleCalendar seg s).2.db := by
  simp only [handleCalendar]
  split
  · exact rowsPreserved_refl _
  · split
    · exact rowsPreserved_refl _
    · exact rowsPreserved_refl _

theorem preserved_event (req : Request) (seg : String) (s : ServerState) :
    RowsPreserved s.db (handleEvent req seg s).2.db := by
  simp only [handleEvent]
  split
  · exact rowsPreserved_refl _
  · split
    · split
      · exact rowsPreserved_refl _
      · exact rowsPreserved_refl _
    · split
      · split
        · split
          · exact rowsPreserved_refl _
          · rw [insertOrReplaceInvite_eq_append]
            exact ⟨List.Subset.refl _, List.Subset.refl _,
                   map_subset_append _ _ _, List.Subset.refl _⟩
        · exact rowsPreserved_refl _
      · split
        · split
          · exact ⟨List.Subset.refl _, List.Subset.refl _,
                   List.Subset.refl _, map_subset_append _ _ _⟩
          · exact rowsPreserved_refl _
        · exact rowsPreserved_refl _

theorem preserved_adminEvent (req : Request) (seg : String) (s : ServerState) :
    RowsPreserved s.db (handleAdminEvent req seg s).2.db := by
  simp only [handleAdminEvent]
  split
  · exact rowsPreserved_refl _
  · split
    · exact rowsPreserved_refl _
    · split
      · exact rowsPreserved_refl _
      · split
        · exact rowsPreserved_refl _
        · split
          · exact rowsPreserved_refl _
          · split
            · split
              · exact rowsPreserved_refl _
              · exact rowsPreserved_refl _
            · refine ⟨List.Subset.refl _, ?_, List.Subset.refl _, List.Subset.refl _⟩
              rw [map_map_eq_of_comp _ _ _ (fun x => by split <;> rfl)]
              exact List.Subset.refl _

theorem preserved_insertAnon (s : ServerState) (eid : Int)
    (gname gemail gphone rsvp : String) (a k : Int) :
    RowsPreserved s.db (insertAnonInvite s eid gname gemail gphone rsvp a k).db := by
  simp only [insertAnonInvite]
  exact ⟨List.Subset.refl _, List.Subset.refl _,
         map_subset_append _ _ _, List.Subset.refl _⟩

theorem preserved_anonPostCore (s : ServerState) (eid : Int)
    (gname gemail gphone rsvp : String) (a k : Int) :
    RowsPreserved s.db (anonPostCore s eid gname gemail gphone rsvp a k).2.db := by
  simp only [anonPostCore]
  split
  · refine ⟨List.Subset.refl _, List.Subset.refl _, ?_, List.Subset.refl _⟩
    rw [map_map_eq_of_comp _ _ _ (fun x => by split <;> rfl)]
    exact List.Subset.refl _
  · split
    · split
      · exact rowsPreserved_refl _
      · exact preserved_insertAnon _ _ _ _ _ _ _ _
    · exact preserved_insertAnon _ _ _ _ _ _ _ _

theorem preserved_anonymousRsvp (req : Request) (seg : String) (s : ServerState) :
    RowsPreserved s.db (handleAnonymousRsvp req seg s).2.db := by
  simp only [handleAnonymousRsvp]
  split
  · exact rowsPreserved_refl _
  · split
    · split
      · exact rowsPreserved_refl _
      · exact rowsPreserved_refl _
    · split
      · exact rowsPreserved_refl _
      · split
        · exact rowsPreserved_refl _
        · exact preserved_anonPostCore _ _ _ _ _ _ _ _

theorem anonInvariant_update (l : List InviteRow) (g : InviteRow → InviteRow)
    (hg : ∀ e p i, anonMatch e p (g i) = anonMatch e p i)
    (hinv : AnonInvariant l) : AnonInvariant (l.map g) := by
  intro e p
  rw [List.filter_map, List.length_map]
  have hcongr : l.filter (anonMatch e p ∘ g) = l.filter (anonMatch e p) :=
    List.filter_congr (fun a _ => hg e p a)
  rw [hcongr]
  exact hinv e p

theorem anonInvariant_append (l : List InviteRow) (r : InviteRow) (p0 : String)
    (hph : r.guest_phone = some p0)
    (hfind : l.find? (anonMatch r.event_id p0) = none)
    (hinv : AnonInvariant l) : AnonInvariant (l ++ [r]) := by
  intro e p
  rw [List.filter_append, List.length_append]
  by_cases hm : anonMatch e p r = true
  · have hm' := hm
    simp only [anonMatch, Bool.and_eq_true, decide_eq_true_eq] at hm'
    obtain ⟨⟨hev, hpho⟩, _⟩ := hm'
    have hp0 : p = p0 := by rw [hph] at hpho; injection hpho with h; exact h.symm
    have hl : l.filter (anonMatch e p) = [] := by
      apply List.filter_eq_nil_iff.mpr
      intro a ha
      have hne := List.find?_eq_none.mp hfind a ha
      rw [← hev, hp0]
      simpa using hne
    simp [hl, List.filter, hm]
  · have h1 := hinv e p
    have hr : List.filter (anonMatch e p) [r] = [] := by
      simp [List.filter, Bool.eq_false_iff.mpr hm]
    rw [hr]
    simpa using h1

theorem anonPostCore_preserves_invariant (s : ServerState) (eid : Int)
    (gname gemail gphone rsvp : String) (a k : Int)
    (hinv : AnonInvariant s.db.invites) :
    AnonInvariant (anonPostCore s eid gname gemail gphone rsvp a k).2.db.invites := by
  simp only [anonPostCore]
  split
  · exact anonInvariant_update _ _ (fun e p i => by split <;> rfl) hinv
  · rename_i hfind
    split
    · split
      · exact hinv
      · simp only [insertAnonInvite]
        exact anonInvariant_append _ _ gphone rfl hfind hinv
    · simp only [insertAnonInvite]
      exact anonInvariant_append _ _ gphone rfl hfind hinv

theorem anonPostCore_match_updates_in_place (s : ServerState) (eid : Int)
    (gname gemail gphone rsvp : String) (a k : Int)
    (hsome : (s.db.invites.find? (anonMatch eid gphone)).isSome = true) :
    (anonPostCore s eid gname gemail gphone rsvp a k).2.db.invites.map (·.id)
      = s.db.invites.map (·.id) := by
  simp only [anonPostCore]
  split
  · exact map_map_eq_of_comp _ _ _ (fun x => by split <;> rfl)
  · rename_i hfind
    rw [hfind] at hsome
    simp at hsome

/-- Unrolling of the admin statistics loop: the three counters add up to the
number of rows folded over, and the two totals accumulate the `or`-coalesced
quantities of the yes-rows. -/
theorem statsFold (l : List InviteRow) (st : RsvpStats) :
    ((l.foldl statsStep st).attending + (l.foldl statsStep st).not_attending
        + (l.foldl statsStep st).no_response
      = st.attending + st.not_attending + st.no_response + l.length)
    ∧ (l.foldl statsStep st).total_adults
        = st.total_adults + ((l.filter (fun i => decide (i.rsvp = some "yes"))).map
            (fun i => pyOrInt i.adults_qty 1)).sum
    ∧ (l.foldl statsStep st).total_kids
        = st.total_kids + ((l.filter (fun i => decide (i.rsvp = some "yes"))).map
            (fun i => pyOrInt i.kids_qty 0)).sum := by
  induction l generalizing st with
  | nil => simp
  | cons i t ih =>
    obtain ⟨ih1, ih2, ih3⟩ := ih (statsStep st i)
    simp only [List.foldl_cons, List.filter_cons, List.length_cons]
    by_cases h : i.rsvp = some "yes"
    · rw [ih1, ih2, ih3]
      simp [statsStep, h]
      omega
    · by_cases h2 : i.rsvp = some "no"
      · rw [ih1, ih2, ih3]
        simp [statsStep, h, h2]
        omega
      · rw [ih1, ih2, ih3]
        simp [statsStep, h, h2]
        omega

theorem pyOrInt_default_one (q : Option Int) :
    pyOrInt q 1 = specAdultContribution q := by
  cases q <;> rfl

theorem pyOrInt_default_zero (q : Option Int) : pyOrInt q 0 = q.getD 0 := by
  cases q with
  | none => rfl
  | some n =>
    simp only [pyOrInt, Option.getD_some]
    split <;> omega

theorem sessionsGet_pop (l : List (String × Int)) (sid : String) :
    sessionsGet (sessionsPop l sid) sid = none := by
  simp only [sessionsGet, sessionsPop]
  have h : List.find? (fun p => decide (p.1 = sid))
      (l.filter (fun p => decide (p.1 ≠ sid))) = none := by
    apply List.find?_eq_none.mpr
    intro x hx
    have hne := (List.mem_filter.mp hx).2
    simp only [decide_eq_true_eq] at hne ⊢
    exact hne
  rw [h]
  rfl

/-!
## The claims
-/

/-- C7: Rows are never explicitly deleted: no request handled by the WSGI
application removes any row from the users, events, invites, or comments
tables — for every request, every row present (identified by its primary
key id; updates mutate rows in place) in those tables before the request is
still present afterwards.  This also covers requests on which the handler
raises: the state returned is the one as of the raise point. -/
theorem c7_no_request_deletes_rows (req : Request) (s : ServerState) :
    RowsPreserved s.db ((handle req s).2).db := by
  obtain ⟨path, method, cookieSid, params, freshSid, now⟩ := req
  cases path with
  | root => exact rowsPreserved_refl _
  | register =>
    cases method with
    | get => exact rowsPreserved_refl _
    | post => exact preserved_registerPost _ _
  | login =>
    cases method with
    | get => exact rowsPreserved_refl _
    | post => exact preserved_loginPost _ _
  | logout => exact preserved_logout _ _
  | staticFile rest => exact rowsPreserved_refl _
  | calendar seg => exact preserved_calendar _ _
  | event seg => exact preserved_event _ _ _
  | adminEvent seg => exact preserved_adminEvent _ _ _
  | anonymousRsvp seg => exact preserved_anonymousRsvp _ _ _
  | rsvpThanks seg =>
    simp only [handle, handleRsvpThanks]
    split
    · exact rowsPreserved_refl _
    · exact rowsPreserved_refl _
  | other => exact rowsPreserved_refl _

/-- C1: the claim says the startup migration adapts the invites table
without data loss, every previous column value (including `guest_phone`)
preserved.  The code contradicts it: the `INSERT INTO invites_new ...
SELECT` copies the literal `NULL` as `guest_phone` (and it runs on every
startup), so a row whose phone number was populated comes out of `init_db`
with `guest_phone` NULL — the row survives (same id) but its phone value is
erased. -/
theorem c1_initdb_migration_erases_guest_phone :
    c1Row.guest_phone = some "5551234567"
    ∧ (migrateInvites [c1Row]).map (·.id) = [1]
    ∧ (migrateInvites [c1Row]).map (·.guest_phone) = [none] := by decide

/-- C2: the claim says a second RSVP by the same logged-in user overwrites
the prior invite row, leaving exactly one row for the (event, user) pair.
The code contradicts it: the `invites` table's only uniqueness constraint
is the autoincrement primary key, which the `INSERT OR REPLACE` never
supplies, so no conflict can arise and every submission appends a fresh
row.  Here user 1, who already RSVP'd "yes" to event 1, submits "no": the
request succeeds and afterwards two rows exist for the pair, the old one
still carrying "yes". -/
theorem c2_second_rsvp_adds_second_row :
    (c2State.db.invites.filter (fun i =>
        decide (i.event_id = 1) && decide (i.user_id = some 1))).length = 1
    ∧ (handle c2Req c2State).1 = .ok (.redirect "/event/1")
    ∧ ((handle c2Req c2State).2.db.invites.filter (fun i =>
        decide (i.event_id = 1) && decide (i.user_id = some 1))).length = 2
    ∧ ((handle c2Req c2State).2.db.invites.map (·.rsvp))
        = [some "yes", some "no"] :=
  ⟨by decide, rfl, by decide, rfl⟩

/-- C3: anonymous invites are deduplicated by phone number.  For every
state whose invites satisfy the at-most-one-anonymous-row-per-(event,
phone) invariant and every POST to `/anonymous-rsvp/<event_id>`, the
invariant still holds afterwards; and when the submitted phone number
matches an existing anonymous invite for that event (the single equality
lookup of the duplicate check), the row set is unchanged — the matching row
is updated in place and no row is inserted. -/
theorem c3_anonymous_invites_deduplicated_by_phone
    (req : Request) (seg : String) (s : ServerState)
    (hpath : req.path = .anonymousRsvp seg) (hmeth : req.method = .post)
    (hinv : AnonInvariant s.db.invites) :
    AnonInvariant ((handle req s).2.db.invites)
    ∧ (∀ eid, pyInt seg = some eid →
        (s.db.invites.find? (anonMatch eid
          (pyStrip (getPD req.params "guest_phone" "")))).isSome = true →
        ((handle req s).2.db.invites.map (·.id) = s.db.invites.map (·.id))) := by
  obtain ⟨path, method, cookieSid, params, freshSid, now⟩ := req
  dsimp only at hpath hmeth
  subst hpath
  subst hmeth
  simp only [handle, handleAnonymousRsvp]
  cases hseg : pyInt seg with
  | none =>
    refine ⟨hinv, ?_⟩
    intro eid heid
    exact absurd heid (by simp)
  | some eid0 =>
    cases hqa : anonQty (getP params "adults_qty") 1 with
    | error e => exact ⟨hinv, fun eid heid hsome => rfl⟩
    | ok a =>
      cases hqk : anonQty (getP params "kids_qty") 0 with
      | error e => exact ⟨hinv, fun eid heid hsome => rfl⟩
      | ok k =>
        refine ⟨anonPostCore_preserves_invariant _ _ _ _ _ _ _ _ hinv, ?_⟩
        intro eid heid hsome
        injection heid with heid'
        subst heid'
        exact anonPostCore_match_updates_in_place _ _ _ _ _ _ _ _ hsome

/-- C3 witness: a concrete anonymous resubmission with a phone number that
matches the one existing anonymous invite for event 1. -/
theorem c3_anonymous_invites_deduplicated_by_phone_witness :
    AnonInvariant c3wState.db.invites
    ∧ (AnonInvariant ((handle c3wReq c3wState).2.db.invites)
       ∧ (∀ eid, pyInt "1" = some eid →
          (c3wState.db.invites.find? (anonMatch eid
            (pyStrip (getPD c3wReq.params "guest_phone" "")))).isSome = true →
          ((handle c3wReq c3wState).2.db.invites.map (·.id)
            = c3wState.db.invites.map (·.id)))) :=
  ⟨fun _ _ => (List.length_filter_le _ _).trans (Nat.le_refl _),
   c3_anonymous_invites_deduplicated_by_phone c3wReq "1" c3wState rfl rfl
     (fun _ _ => (List.length_filter_le _ _).trans (Nat.le_refl _))⟩

/-- C4: user emails are unique.  A registration POST with its three fields
filled whose email already exists in the users table is rejected by the
`UNIQUE` constraint: the handler redisplays the registration form with the
inline message "Email already registered." and the whole server state —
users and invites tables included — is unchanged. -/
theorem c4_duplicate_email_registration_rejected (req : Request) (s : ServerState)
    (hpath : req.path = .register) (hmeth : req.method = .post)
    (hname : pyStrip (getPD req.params "name" "") ≠ "")
    (hemail : pyStrip (getPD req.params "email" "") ≠ "")
    (hpw : getPD req.params "password" "" ≠ "")
    (hdup : s.db.users.any (fun u =>
        decide (u.email = pyStrip (getPD req.params "email" ""))) = true) :
    handle req s
      = (.ok (.page "register.html" (some "Email already registered.")), s) := by
  obtain ⟨path, method, cookieSid, params, freshSid, now⟩ := req
  dsimp only at hpath hmeth hname hemail hpw hdup
  subst hpath
  subst hmeth
  simp only [handle, handleRegisterPost]
  rw [if_neg (by push_neg; exact ⟨hname, hemail, hpw⟩)]
  rw [if_pos hdup]

/-- C4 witness: re-registering an email that is already taken. -/
theorem c4_duplicate_email_registration_rejected_witness :
    c4wState.db.users.any (fun u =>
        decide (u.email = pyStrip (getPD c4wReq.params "email" ""))) = true
    ∧ handle c4wReq c4wState
        = (.ok (.page "register.html" (some "Email already registered.")), c4wState) :=
  ⟨by decide,
   c4_duplicate_email_registration_rejected c4wReq c4wState rfl rfl
     (by decide) (by decide) (by decide) (by decide)⟩

/-- C5: the claim says an anonymous RSVP POST lacking a guest name or phone
number, or with an rsvp value other than "yes"/"no", redisplays the form
with an inline error and leaves the invites table unchanged.  The code
contradicts it: the error branch's `template.render(...,
calendar_links=calendar_links, ...)` reads a local that is only assigned on
GET paths, so whenever the event row exists the branch raises
`UnboundLocalError` instead of rendering the form (and when the submitted
phone matches an existing anonymous invite, the duplicate check runs first
and updates the row despite the invalid fields). -/
theorem c5_invalid_anonymous_rsvp_raises_unbound_local :
    handle c5Req c5State = (.error (.unboundLocal "calendar_links"), c5State) := rfl

/-- C6: only an administrator reaches `/admin/event/<id>`.  For any request
on that route with a well-formed id: if no session maps to a user the
response is a 302 redirect to `/login`; if the session's user exists (with
a truthy id) but is not an admin, the response is 403 Forbidden; in both
cases the whole server state — the events table included — is unchanged. -/
theorem c6_admin_page_requires_admin (req : Request) (seg : String) (eid : Int)
    (s : ServerState)
    (hpath : req.path = .adminEvent seg) (hseg : pyInt seg = some eid) :
    (get_user_from_session s.sessions req.cookieSid = none →
       handle req s = (.ok (.redirect "/login"), s))
    ∧ (∀ uid u, get_user_from_session s.sessions req.cookieSid = some uid →
        uid ≠ 0 →
        s.db.users.find? (fun x => decide (x.id = uid)) = some u →
        u.is_admin = false →
        handle req s = (.ok (.forbidden "Admin access required"), s)) := by
  obtain ⟨path, method, cookieSid, params, freshSid, now⟩ := req
  dsimp only at hpath
  subst hpath
  constructor
  · intro hnone
    dsimp only at hnone
    simp only [handle, handleAdminEvent, hseg, hnone]
  · intro uid u huid hne hfind hadm
    dsimp only at huid
    simp only [handle, handleAdminEvent, hseg, huid, hfind]
    rw [if_neg hne, if_pos hadm]

/-- C6 witness: a request without a cookie is redirected to `/login`, and
the same page with a logged-in non-admin user gets 403. -/
theorem c6_admin_page_requires_admin_witness :
    handle c6wReqAnon c6wState = (.ok (.redirect "/login"), c6wState)
    ∧ handle c6wReqUser c6wState
        = (.ok (.forbidden "Admin access required"), c6wState) :=
  ⟨(c6_admin_page_requires_admin c6wReqAnon "1" 1 c6wState rfl (by decide)).1 rfl,
   (c6_admin_page_requires_admin c6wReqUser "1" 1 c6wState rfl (by decide)).2 1
     { id := 1, name := "Bob", email := "bob@example.com",
       password_hash := hash_password "pw", is_admin := false }
     rfl (by decide) rfl rfl⟩

/-- C8: sessions live in process memory keyed by the cookie, and logout
invalidates the session: after a `/logout` request carrying a session
cookie, that session id is gone from the store, any later request
presenting the same cookie is treated as not logged in
(`get_user_from_session` returns `None`), and the database is untouched. -/
theorem c8_logout_invalidates_session (req : Request) (s : ServerState)
    (sid : String)
    (hpath : req.path = .logout) (hcookie : req.cookieSid = some sid) :
    sessionsGet ((handle req s).2).sessions sid = none
    ∧ get_user_from_session ((handle req s).2).sessions (some sid) = none
    ∧ ((handle req s).2).db = s.db := by
  obtain ⟨path, method, cookieSid, params, freshSid, now⟩ := req
  dsimp only at hpath hcookie
  subst hpath
  subst hcookie
  simp only [handle, handleLogout]
  refine ⟨sessionsGet_pop _ _, ?_, by trivial⟩
  simp only [get_user_from_session]
  exact sessionsGet_pop _ _

/-- C8 witness: logging out the one live session. -/
theorem c8_logout_invalidates_session_witness :
    sessionsGet ((handle c8wReq c8wState).2).sessions "c8sid" = none
    ∧ get_user_from_session ((handle c8wReq c8wState).2).sessions
        (some "c8sid") = none
    ∧ ((handle c8wReq c8wState).2).db = c8wState.db :=
  c8_logout_invalidates_session c8wReq c8wState "c8sid" rfl rfl

/-- C9 counterexample: the claim characterises `total_adults` as the sum of
`adults_qty` over yes-invites with only NULL coalesced to 1, but the code
computes `adults_qty or 1`, which also turns an explicit 0 into 1: on a
single yes-invite with `adults_qty = 0` the code reports 1 where the
claimed formula gives 0. -/
theorem c9_counterexample_zero_adults :
    (adminRsvpStats c9db 1).total_adults = 1
    ∧ specTotalAdultsClaim c9db 1 = 0
    ∧ (adminRsvpStats c9db 1).total_adults ≠ specTotalAdultsClaim c9db 1 := by
  decide

/-- C9 as amended: on the admin page's statistics for an event, attending,
not_attending and no_response partition the event's invite rows (their sum
is the row count), `total_adults` is the sum over yes-invites of
`adults_qty` with NULL *or zero* counted as 1 (Python `or`), and
`total_kids` is the sum over yes-invites of `kids_qty` with NULL counted as
0 exactly as claimed. -/
theorem c9_stats_partition_and_totals (db : DB) (eid : Int) :
    (adminRsvpStats db eid).attending + (adminRsvpStats db eid).not_attending
        + (adminRsvpStats db eid).no_response = (eventInvites db eid).length
    ∧ (adminRsvpStats db eid).total_adults
        = (((eventInvites db eid).filter (fun i => decide (i.rsvp = some "yes"))).map
            (fun i => specAdultContribution i.adults_qty)).sum
    ∧ (adminRsvpStats db eid).total_kids = specTotalKidsClaim db eid := by
  obtain ⟨h1, h2, h3⟩ := statsFold (eventInvites db eid) ⟨0, 0, 0, 0, 0⟩
  refine ⟨?_, ?_, ?_⟩
  · simpa [adminRsvpStats] using h1
  · have h2' := h2
    simp only [pyOrInt_default_one] at h2'
    simpa [adminRsvpStats] using h2'
  · have h3' := h3
    simp only [pyOrInt_default_zero] at h3'
    simpa [adminRsvpStats, specTotalKidsClaim] using h3'

/-- C10 counterexample: the claim says the RSVP handler returns a response
for every string value of the quantity fields, but `int("abc")` raises
`ValueError`, which nothing catches: at this request the handler raises
instead of returning a response. -/
theorem c10_counterexample_nonnumeric_quantity :
    handle c10Req c10State = (.error .valueError, c10State) := rfl

/-- C10 as amended: a POST to `/event/<id>` with action "rsvp" and response
"yes" returns an HTTP response whenever each quantity field is absent or a
valid Python integer literal; for other values `int()` raises `ValueError`
and the handler does not return. -/
theorem c10_rsvp_quantity_parsing_total_on_numeric (req : Request)
    (seg : String) (s : ServerState)
    (hpath : req.path = .event seg) (hmeth : req.method = .post)
    (haction : getPD req.params "action" "" = "rsvp")
    (hresp : getPD req.params "response" "" = "yes")
    (ha : qtyOk (getP req.params "adults_qty"))
    (hk : qtyOk (getP req.params "kids_qty")) :
    ∃ r s', handle req s = (.ok r, s') := by
  obtain ⟨path, method, cookieSid, params, freshSid, now⟩ := req
  dsimp only at hpath hmeth haction hresp ha hk
  subst hpath
  subst hmeth
  simp only [handle, handleEvent]
  cases hseg : pyInt seg with
  | none => exact ⟨_, _, rfl⟩
  | some eid =>
    dsimp only
    rw [if_pos haction, if_pos (Or.inl hresp), if_pos hresp]
    cases hga : getP params "adults_qty" with
    | none =>
      cases hgk : getP params "kids_qty" with
      | none => exact ⟨_, _, rfl⟩
      | some strk =>
        rw [hgk] at hk
        obtain ⟨nk, hnk⟩ := Option.isSome_iff_exists.mp hk
        simp only [eventQty, hnk]
        exact ⟨_, _, rfl⟩
    | some stra =>
      rw [hga] at ha
      obtain ⟨na, hna⟩ := Option.isSome_iff_exists.mp ha
      cases hgk : getP params "kids_qty" with
      | none =>
        simp only [eventQty, hna]
        exact ⟨_, _, rfl⟩
      | some strk =>
        rw [hgk] at hk
        obtain ⟨nk, hnk⟩ := Option.isSome_iff_exists.mp hk
        simp only [eventQty, hna, hnk]
        exact ⟨_, _, rfl⟩

/-- C10 witness: the same RSVP with numeric quantity strings returns a
response. -/
theorem c10_rsvp_quantity_parsing_total_on_numeric_witness :
    qtyOk (getP c10wReq.params "adults_qty")
    ∧ qtyOk (getP c10wReq.params "kids_qty")
    ∧ ∃ r s', handle c10wReq c10State = (.ok r, s') :=
  ⟨by exact rfl, by exact rfl,
   c10_rsvp_quantity_parsing_total_on_numeric c10wReq "1" c10State rfl rfl
     rfl rfl (by exact rfl) (by exact rfl)⟩




